import Mathlib

/-!
Verification of the ElliotSkyFallDailyWeather pipeline.

Shallow embedding of the four core components of the repository:
the timeline synchronizer (`src/video/timeline-builder.ts`), the weather
acquisition service (`src/weather/fetcher.ts`), the image artifact cache
(`src/images/generator.ts`) and the episode orchestrator
(`src/cli/commands/generate.ts`).

Modelling conventions:
* JavaScript numbers are modelled as `ℚ` (rationals); frame counts and
  integer columns as `ℤ`; `Math.round` is Mathlib's `round` (both compute
  `⌊x + 1/2⌋`), `Math.ceil` is `Int.ceil`.
* ISO timestamp strings that are only ever compared / subtracted are
  modelled by their epoch-milliseconds value in `ℤ`.
* Stateful code (SQLite tables, the filesystem, external API calls) is
  modelled by explicit state passing; a thrown exception is an
  `Except.error` carrying the message, paired with the state at the point
  of the throw.
* External collaborators (Claude, ElevenLabs, Gemini, Remotion, NWS
  fetches) are environment parameters, as are the presentation-only
  string builders applied to their inputs.
-/

/-- JavaScript `o || d` for an optional string (`undefined`/`null` and the
empty string are falsy). -/
def jsOrStr (o : Option String) (d : String) : String :=
  match o with
  | none => d
  | some s => if s = "" then d else s

/-- JavaScript `o || d` for an optional integer (`undefined`/`null` and `0`
are falsy). -/
def jsOrInt (o : Option ℤ) (d : ℤ) : ℤ :=
  match o with
  | none => d
  | some v => if v = 0 then d else v

/-- Model of `path.join(a, b)` (modelled as separator concatenation). -/
def pathJoin (a b : String) : String := a ++ "/" ++ b

/-- Model of `String(n).padStart(2, '0')` for a natural number. -/
def padTwo (n : ℕ) : String :=
  if n < 10 then "0" ++ toString n else toString n

/-! Timeline synchronizer (`src/video/timeline-builder.ts`) -/

/-- A graphic cue as produced by `parseGraphicCues`
(`src/script/graphic-cue-parser.ts`); the timeline builder reads only
`description` and `duration`. -/
structure GraphicCue where
  index : ℕ
  description : String
  duration : ℚ
  cueType : String
  position : ℕ
  contextText : String
deriving Repr, DecidableEq

/-- Model of `TimelineSegment` from `src/video/types.ts`. -/
structure TimelineSegment where
  startFrame : ℤ
  endFrame : ℤ
  durationFrames : ℤ
  imagePath : String
  caption : Option String
deriving Repr, DecidableEq

/-- Model of `WeatherSummary` from `src/video/types.ts`. -/
structure WeatherSummary where
  temperature : String
  conditions : String
  wind : String
  hazards : List String
  outlook : String
deriving Repr, DecidableEq

/-- Model of `VideoTimeline` from `src/video/types.ts`. -/
structure VideoTimeline where
  fps : ℚ
  durationInFrames : ℤ
  segments : List TimelineSegment
  audioPath : String
  audioDuration : ℚ
  broadcastDate : String
  location : String
  weatherSummary : Option WeatherSummary
deriving Repr, DecidableEq

/-- Model of `TimelineBuildOptions` from `src/video/timeline-builder.ts`. -/
structure TimelineBuildOptions where
  graphicCues : List GraphicCue
  audioPath : String
  audioDuration : ℚ
  imagesDir : String
  fps : Option ℚ
  broadcastDate : Option String
  location : Option String
  weatherSummary : Option WeatherSummary
deriving Repr, DecidableEq

/-- Model of `options.fps || DEFAULT_FPS` — `undefined` and `0` fall back to 30. -/
def effectiveFps (fps : Option ℚ) : ℚ :=
  match fps with
  | none => 30
  | some f => if f = 0 then 30 else f

/-- Model of `cue.duration || 5` — `0` (falsy) falls back to the default 5 seconds. -/
def cueHint (c : GraphicCue) : ℚ :=
  if c.duration = 0 then 5 else c.duration

/-- Model of `reduce((sum, cue) => sum + (cue.duration || 5), 0)`. -/
def sumHints (cues : List GraphicCue) : ℚ :=
  cues.foldl (fun s c => s + cueHint c) 0

/-- The cue loop of `buildTimeline`: walks the cues accumulating
`currentFrame`, returning the produced segments together with the final
`currentFrame`.  `i` is the 0-based loop index (used for the image file
name). -/
def buildLoop (imagesDir : String) (scaleFactor fps : ℚ) (totalFrames : ℤ) :
    List GraphicCue → ℕ → ℤ → List TimelineSegment × ℤ
  | [], _, cur => ([], cur)
  | cue :: rest, i, cur =>
    let cueDuration := cueHint cue * scaleFactor
    let durationFrames := round (cueDuration * fps)
    let startFrame := cur
    let endFrame := min (cur + durationFrames) totalFrames
    let seg : TimelineSegment :=
      { startFrame := startFrame, endFrame := endFrame,
        durationFrames := endFrame - startFrame,
        imagePath := pathJoin imagesDir ("graphic-" ++ padTwo (i + 1) ++ ".png"),
        caption := some cue.description }
    let r := buildLoop imagesDir scaleFactor fps totalFrames rest (i + 1) endFrame
    (seg :: r.1, r.2)

/-- The post-loop fixup of `buildTimeline`: extend the last segment's
`endFrame` to `totalFrames` and recompute its frame count. -/
def extendLast (totalFrames : ℤ) : List TimelineSegment → List TimelineSegment
  | [] => []
  | [s] => [{ s with endFrame := totalFrames, durationFrames := totalFrames - s.startFrame }]
  | s :: t :: rest => s :: extendLast totalFrames (t :: rest)

/-- Model of `buildTimeline` from `src/video/timeline-builder.ts`.  `resolve` models
`path.resolve` (environment dependent), `nowIso` models
`new Date().toISOString()`. -/
def buildTimeline (resolve : String → String) (nowIso : String)
    (options : TimelineBuildOptions) : VideoTimeline :=
  let fps := effectiveFps options.fps
  let totalFrames : ℤ := ⌈options.audioDuration * fps⌉
  let imagesDir := resolve options.imagesDir
  let audioPath := resolve options.audioPath
  if options.graphicCues.length = 0 then
    { fps := fps, durationInFrames := totalFrames,
      segments := [{ startFrame := 0, endFrame := totalFrames,
                     durationFrames := totalFrames,
                     imagePath := pathJoin imagesDir "placeholder.png",
                     caption := none }],
      audioPath := audioPath, audioDuration := options.audioDuration,
      broadcastDate := jsOrStr options.broadcastDate nowIso,
      location := jsOrStr options.location "Denver, Colorado",
      weatherSummary := options.weatherSummary }
  else
    let totalSpecifiedDuration := sumHints options.graphicCues
    let scaleFactor := options.audioDuration / totalSpecifiedDuration
    let r := buildLoop imagesDir scaleFactor fps totalFrames options.graphicCues 0 0
    let segments :=
      if 0 < r.1.length ∧ r.2 < totalFrames then extendLast totalFrames r.1 else r.1
    { fps := fps, durationInFrames := totalFrames,
      segments := segments,
      audioPath := audioPath, audioDuration := options.audioDuration,
      broadcastDate := jsOrStr options.broadcastDate nowIso,
      location := jsOrStr options.location "Denver, Colorado",
      weatherSummary := options.weatherSummary }

/-! Weather acquisition (`src/weather/fetcher.ts`) -/

/-- A hazard from the Area Forecast Discussion (`src/types/weather.ts`);
presentation-only fields that no modelled code reads are omitted. -/
structure Hazard where
  hazardKind : String
  timing : String
  description : String
deriving Repr, DecidableEq

/-- Current conditions (`src/types/weather.ts`), restricted to the fields
the modelled code reads. -/
structure CurrentConditions where
  temperature : ℚ
  conditions : String
  windDirection : String
  windSpeed : ℚ
deriving Repr, DecidableEq

/-- Model of `AFDData`, restricted to the fields the modelled code reads. -/
structure AFDData where
  hazards : List Hazard
  issueTime : String
  rawText : String
deriving Repr, DecidableEq

/-- Model of `ForecastData`, restricted to the fields the modelled code reads. -/
structure ForecastData where
  current : CurrentConditions
  rawHtml : String
deriving Repr, DecidableEq

/-- Model of `WeatherData`; `fetchedAt` is the ISO timestamp modelled as epoch
milliseconds. -/
structure WeatherData where
  afd : AFDData
  forecast : ForecastData
  fetchedAt : ℤ
  isStale : Bool
  staleAge : Option ℤ
deriving Repr, DecidableEq

/-- Model of `WeatherFetchResult` from `src/types/weather.ts`. -/
structure WeatherFetchResult where
  success : Bool
  data : Option WeatherData
  error : Option String
  usedFallback : Bool
deriving Repr, DecidableEq

/-- A row of the `weather_snapshots` table (`src/storage/schema.ts`);
`parsedData` is the JSON-serialised `WeatherData` stored in typed form. -/
structure WeatherSnapshot where
  id : String
  episodeId : Option String
  afdRaw : String
  forecastRaw : String
  parsedData : WeatherData
  fetchedAt : ℤ
  nwsIssuedAt : Option String
deriving Repr, DecidableEq

/-- Environment of `fetchWeatherData`: the (failable) outcome of each
numbered fetch attempt (`Promise.all([fetchAFD(), fetchForecast()])`),
the current time, whether the best-effort snapshot insert succeeds, and
the `nanoid` drawn for a saved snapshot. -/
structure FetchEnv where
  attemptResult : ℕ → Except String (AFDData × ForecastData)
  now : ℤ
  snapshotSaveOk : Bool
  freshSnapshotId : String

/-- Model of `MAX_RETRIES` from `src/weather/fetcher.ts`. -/
def MAX_RETRIES : ℕ := 3

/-- Model of `saveWeatherSnapshot`: best-effort insert; its own failure is swallowed
(`try/catch` with a logged warning), leaving the table unchanged. -/
def saveWeatherSnapshot (env : FetchEnv) (data : WeatherData)
    (episodeId : Option String) (snaps : List WeatherSnapshot) :
    List WeatherSnapshot :=
  if env.snapshotSaveOk then
    snaps ++ [{ id := env.freshSnapshotId, episodeId := episodeId,
                afdRaw := data.afd.rawText, forecastRaw := data.forecast.rawHtml,
                parsedData := data, fetchedAt := data.fetchedAt,
                nwsIssuedAt := some data.afd.issueTime }]
  else snaps

/-- Model of `orderBy(desc(fetchedAt)).limit(1)`: the snapshot with the greatest
`fetchedAt` (first such row on ties). -/
def mostRecentSnapshot : List WeatherSnapshot → Option WeatherSnapshot
  | [] => none
  | s :: rest =>
    match mostRecentSnapshot rest with
    | none => some s
    | some m => some (if m.fetchedAt ≤ s.fetchedAt then s else m)

/-- Model of `getFallbackData`: read the most recent snapshot (across all episodes),
mark it stale with its age in whole hours. -/
def getFallbackData (now : ℤ) (snaps : List WeatherSnapshot) :
    Option WeatherData :=
  match mostRecentSnapshot snaps with
  | none => none
  | some snapshot =>
    some { snapshot.parsedData with
           isStale := true,
           staleAge := some (round (((now - snapshot.fetchedAt : ℤ) : ℚ) / (1000 * 60 * 60))) }

/-- The retry loop of `fetchWeatherData`; `fuel` counts the remaining
attempts (the attempt number is `MAX_RETRIES - fuel + 1`), `lastError`
the message of the last failed attempt. -/
def fetchGo (env : FetchEnv) (episodeId : Option String) :
    ℕ → Option String → List WeatherSnapshot →
    WeatherFetchResult × List WeatherSnapshot
  | 0, lastError, snaps =>
    match getFallbackData env.now snaps with
    | some fallback =>
      ({ success := true, data := some fallback, error := none,
         usedFallback := true }, snaps)
    | none =>
      ({ success := false, data := none,
         error := some (jsOrStr lastError "Unknown error fetching weather data"),
         usedFallback := false }, snaps)
  | fuel + 1, _lastError, snaps =>
    match env.attemptResult (MAX_RETRIES - fuel) with
    | Except.ok (afd, forecast) =>
      let weatherData : WeatherData :=
        { afd := afd, forecast := forecast, fetchedAt := env.now,
          isStale := false, staleAge := none }
      let snaps' := saveWeatherSnapshot env weatherData episodeId snaps
      ({ success := true, data := some weatherData, error := none,
         usedFallback := false }, snaps')
    | Except.error e => fetchGo env episodeId fuel (some e) snaps

/-- Model of `fetchWeatherData` from `src/weather/fetcher.ts`: up to `MAX_RETRIES`
attempts, then the snapshot fallback. -/
def fetchWeatherData (env : FetchEnv) (snaps : List WeatherSnapshot)
    (episodeId : Option String) : WeatherFetchResult × List WeatherSnapshot :=
  fetchGo env episodeId MAX_RETRIES none snaps

/-! Image artifact cache (`src/images/generator.ts`) -/

/-- Model of `ImageGenerationRequest` (the `timeContext` presentation field is
absorbed into the environment's prompt builder). -/
structure ImageGenerationRequest where
  prompt : String
  imageType : String
  outputPath : String
deriving Repr, DecidableEq

/-- Model of `ImageGenerationResult`. -/
structure ImageGenerationResult where
  imagePath : String
  prompt : String
  cached : Bool
deriving Repr, DecidableEq

/-- A row of the `image_cache` table (`src/storage/schema.ts`). -/
structure ImageCacheEntry where
  id : String
  promptHash : String
  imageType : String
  styleVersion : ℤ
  imagePath : String
  prompt : String
  generatorModel : String
  lastUsedAt : Option String
  useCount : Option ℤ
deriving Repr, DecidableEq

/-- The configuration fields of `src/utils/config.ts` the image generator
reads. -/
structure ImgConfig where
  styleVersion : ℤ
  geminiApiKey : Option String
deriving Repr, DecidableEq

/-- Environment of the image generator: the external Gemini call
(`stylePrompt ↦ base64 image data` or an error), the presentation-only
`buildStylePrompt` template (uninterpreted), the current timestamp and the
`nanoid` source. -/
structure ImgEnv where
  config : ImgConfig
  generate : String → Except String String
  buildStyle : String → String → String
  now : String
  freshId : ℕ → String

/-- Mutable state touched by the image generator: the `image_cache` table,
the set of files existing on disk, the number of external generator
invocations made so far (observational), and the `nanoid` counter. -/
structure ImgState where
  cache : List ImageCacheEntry
  files : String → Bool
  genCalls : ℕ
  idCounter : ℕ

/-- Model of `writeFileSync` / `copyFileSync` target effect: the path now exists. -/
def setFile (files : String → Bool) (p : String) : String → Bool :=
  fun q => if q = p then true else files q

/-- The model name hard-coded in `generateImage`. -/
def imagenModel : String := "gemini-3-pro-image-preview"

/-- Model of `generateCacheKey`: sha-256 over `prompt|imageType|styleVersion`
truncated to 16 hex chars; the hash is modelled as the identity on the
hashed content (deterministic and, unlike the truncated hash, injective). -/
def generateCacheKey (cfg : ImgConfig) (prompt imageType : String) : String :=
  prompt ++ "|" ++ imageType ++ "|" ++ toString cfg.styleVersion

/-- The cache row lookup of `checkCache`:
`where promptHash ∧ imageType ∧ styleVersion, limit 1`. -/
def cacheLookup (cache : List ImageCacheEntry)
    (promptHash imageType : String) (styleVersion : ℤ) :
    Option ImageCacheEntry :=
  cache.find? (fun c =>
    c.promptHash == promptHash && c.imageType == imageType &&
      c.styleVersion == styleVersion)

/-- Model of `checkCache`: on a hit whose file still exists, bump the row's usage
metadata and return the stored path; otherwise report a miss and leave the
state unchanged. -/
def checkCache (env : ImgEnv) (st : ImgState)
    (promptHash imageType : String) : Option String × ImgState :=
  match cacheLookup st.cache promptHash imageType env.config.styleVersion with
  | some e =>
    if st.files e.imagePath then
      (some e.imagePath,
       { st with cache := st.cache.map (fun c =>
           if c.id = e.id then
             { c with lastUsedAt := some env.now,
                      useCount := some (jsOrInt e.useCount 1 + 1) }
           else c) })
    else (none, st)
  | none => (none, st)

/-- Model of `saveToCache`: insert a fresh cache row (`useCount` takes the schema
default 1). -/
def saveToCache (env : ImgEnv) (st : ImgState)
    (promptHash imageType imagePath prompt generatorModel : String) : ImgState :=
  { st with
    cache := st.cache ++
      [{ id := env.freshId st.idCounter, promptHash := promptHash,
         imageType := imageType, styleVersion := env.config.styleVersion,
         imagePath := imagePath, prompt := prompt,
         generatorModel := generatorModel, lastUsedAt := none,
         useCount := some 1 }],
    idCounter := st.idCounter + 1 }

/-- Model of `generateImage` from `src/images/generator.ts`.  A cache hit copies the
stored artifact to the requested output path and returns that path with
`cached = true`; a miss (or a hit whose file is gone) calls the external
generator, writes the image to the output path, inserts a new cache row and
returns `cached = false`.  A thrown error is the `Except.error` branch. -/
def generateImage (env : ImgEnv) (st : ImgState)
    (request : ImageGenerationRequest) :
    Except String ImageGenerationResult × ImgState :=
  let promptHash := generateCacheKey env.config request.prompt request.imageType
  match checkCache env st promptHash request.imageType with
  | (some _cachedPath, st₁) =>
    (Except.ok { imagePath := request.outputPath, prompt := request.prompt,
                 cached := true },
     { st₁ with files := setFile st₁.files request.outputPath })
  | (none, st₁) =>
    match env.config.geminiApiKey with
    | none => (Except.error "GEMINI_API_KEY is required for image generation", st₁)
    | some _ =>
      let stylePrompt := env.buildStyle request.prompt request.imageType
      let st₂ := { st₁ with genCalls := st₁.genCalls + 1 }
      match env.generate stylePrompt with
      | Except.error msg =>
        (Except.error ("Image generation failed: " ++ msg), st₂)
      | Except.ok _imageData =>
        let st₃ := { st₂ with files := setFile st₂.files request.outputPath }
        let st₄ := saveToCache env st₃ promptHash request.imageType
          request.outputPath request.prompt imagenModel
        (Except.ok { imagePath := request.outputPath, prompt := request.prompt,
                     cached := false }, st₄)

/-- Model of `inferImageType` from `src/images/generator.ts`: keyword-based
classification of a cue description (substring tests on the lower-cased
text). -/
def inferImageType (description : String) : String :=
  let lower := description.map Char.toLower
  let includes := fun (kw : String) => List.IsInfix kw.toList lower.toList
  if includes "elliot" || includes "host" || includes "broadcaster" then
    "character"
  else if includes "background" || includes "scene" || includes "sky" ||
      includes "sunset" || includes "sunrise" || includes "night" then
    "atmospheric"
  else
    "weather_graphic"

/-- The indexed loop of `generateImagesForCues`: generate one image per cue
description in order, threading the cache/filesystem state; the first
thrown error aborts the loop (state at the throw is kept). -/
def generateImagesLoop (env : ImgEnv) (outputDir : String) (st : ImgState) :
    List String → ℕ → Except String (List ImageGenerationResult) × ImgState
  | [], _ => (Except.ok [], st)
  | description :: rest, i =>
    let request : ImageGenerationRequest :=
      { prompt := description, imageType := inferImageType description,
        outputPath := pathJoin outputDir
          ("graphic-" ++ padTwo (i + 1) ++ ".png") }
    match generateImage env st request with
    | (Except.error e, st') => (Except.error e, st')
    | (Except.ok result, st') =>
      match generateImagesLoop env outputDir st' rest (i + 1) with
      | (Except.error e, st'') => (Except.error e, st'')
      | (Except.ok results, st'') => (Except.ok (result :: results), st'')

/-- Model of `generateImagesForCues` from `src/images/generator.ts`. -/
def generateImagesForCues (env : ImgEnv) (st : ImgState)
    (cues : List String) (outputDir : String) :
    Except String (List ImageGenerationResult) × ImgState :=
  generateImagesLoop env outputDir st cues 0

/-! Episode orchestrator (`src/cli/commands/generate.ts`) -/

/-- The `status` enum of the `episodes` table (`src/storage/schema.ts`). -/
inductive EpisodeStatus where
  | init | fetching | generating | synthesizing | syncing | composing
  | done | error
deriving Repr, DecidableEq

/-- A row of the `episodes` table (`src/storage/schema.ts`);
timestamps are epoch milliseconds. -/
structure EpisodeRow where
  id : String
  broadcastDate : String
  broadcastTime : String
  episodeNumber : ℤ
  status : EpisodeStatus
  weatherDataTimestamp : Option String
  weatherIsStale : Bool
  script : Option String
  audioPath : Option String
  videoPath : Option String
  durationSecs : Option ℚ
  updatedAt : Option ℤ
  completedAt : Option ℤ
  error : Option String
deriving Repr, DecidableEq

/-- The input of the environment's script generator (`generateScript` in
`src/script/generator.ts` — a file outside the pipeline sources; its call
site passes these fields, with the weather record already rendered to text
by `formatWeatherForScript`). -/
structure ScriptRequest where
  weatherText : String
  broadcastDate : String
  broadcastTime : String
  episodeNumber : ℤ
  isStaleData : Bool
  staleAge : Option ℤ
  location : String
deriving Repr, DecidableEq

/-- The output of the script generator read by the command. -/
structure ScriptResult where
  script : String
  wordCount : ℕ
  estimatedDurationSecs : ℚ
  graphicCues : List GraphicCue
deriving Repr, DecidableEq

/-- The configuration fields of `src/utils/config.ts` the command reads. -/
structure CmdConfig where
  episodeStartNumber : ℤ
  outputDir : String
deriving Repr, DecidableEq

/-- Model of `GenerateOptions` (`--for`/`--date` already resolved to the broadcast
date and time); `images`/`video` model `options.images !== false` and
`options.video !== false`. -/
structure GenerateOptions where
  broadcastDate : String
  broadcastTime : String
  preview : Bool
  images : Bool
  video : Bool
deriving Repr, DecidableEq

/-- The observable outcome of `generateCommand` (its console result):
either the already-complete short-circuit with the recorded artifact
paths, the preview-mode early return, or a completed run. -/
inductive GenOutcome where
  | alreadyDone (audioPath videoPath : Option String)
  | previewShown (episodeNumber : ℤ)
  | completed (episodeNumber : ℤ)
deriving Repr, DecidableEq

/-- Environment of `generateCommand`: the fetcher environment, the
availability flags and behaviours of the external collaborators (Claude,
ElevenLabs, Gemini, Remotion), the presentation-only weather formatter and
the regex cue parser (uninterpreted — no claim depends on their
definitions), path resolution, clocks, the `nanoid` for a new episode row,
the configured settings, and the ambient current location. -/
structure CmdEnv where
  fetchEnv : FetchEnv
  claudeAvailable : Bool
  generateScript : ScriptRequest → Except String ScriptResult
  formatWeather : WeatherData → String
  elevenLabsAvailable : Bool
  synthesizeAudio : String → String → Except String (String × ℚ)
  geminiAvailable : Bool
  imgEnv : ImgEnv
  parseCues : String → List GraphicCue
  remotionAvailable : Bool
  renderVideo : VideoTimeline → String → Except String (String × ℚ)
  pathResolve : String → String
  nowIso : String
  now : ℤ
  locationName : String
  freshEpisodeId : String
  config : CmdConfig

/-- Mutable state threaded through a command run: the three tables, the
image cache/filesystem state, and observational counters for the external
calls (narration, audio, render). -/
structure CmdState where
  episodes : List EpisodeRow
  snapshots : List WeatherSnapshot
  img : ImgState
  scriptGenCalls : ℕ
  audioCalls : ℕ
  renderCalls : ℕ

/-- Model of `select().from(episodes).where(eq(broadcastDate, d)).limit(1)`. -/
def findEpisodeByDate (st : CmdState) (d : String) : Option EpisodeRow :=
  st.episodes.find? (fun e => e.broadcastDate == d)

/-- Model of `select().from(episodes).where(eq(id, episodeId)).limit(1)`. -/
def findEpisodeById (st : CmdState) (episodeId : String) : Option EpisodeRow :=
  st.episodes.find? (fun e => e.id == episodeId)

/-- Model of `update(episodes).set(f).where(eq(id, episodeId))`. -/
def updateEpisodeRow (st : CmdState) (episodeId : String)
    (f : EpisodeRow → EpisodeRow) : CmdState :=
  { st with episodes := st.episodes.map (fun e =>
      if e.id = episodeId then f e else e) }

/-- Model of `updateEpisodeStatus` from `src/cli/commands/generate.ts`: write the
stage, bump `updatedAt`, and stamp `completedAt` only when reaching
`done`. -/
def updateEpisodeStatus (env : CmdEnv) (st : CmdState) (episodeId : String)
    (status : EpisodeStatus) : CmdState :=
  updateEpisodeRow st episodeId (fun e =>
    { e with status := status, updatedAt := some env.now,
             completedAt := if status = EpisodeStatus.done then some env.now
                            else e.completedAt })

/-- Model of `orderBy(episodes.episodeNumber).limit(1)` — drizzle's default order is
ascending, so this is the row with the minimal episode number (first such
row on ties). -/
def firstByNumberAsc : List EpisodeRow → Option EpisodeRow
  | [] => none
  | e :: rest =>
    match firstByNumberAsc rest with
    | none => some e
    | some m => some (if e.episodeNumber ≤ m.episodeNumber then e else m)

/-- Sequencing of two throwing steps: a thrown error propagates to the
`catch` at the command boundary together with the state at the throw. -/
def andThen {α β : Type} (x : Except String α × CmdState)
    (f : α → CmdState → Except String β × CmdState) :
    Except String β × CmdState :=
  match x with
  | (Except.ok a, st) => f a st
  | (Except.error e, st) => (Except.error e, st)

/-- Phase 1 of the pipeline: mark `fetching`, run the weather fetcher, and
throw if it reports failure (`Failed to fetch weather data: ...`). -/
def phaseFetch (env : CmdEnv) (st : CmdState) (episodeId : String) :
    Except String WeatherData × CmdState :=
  let st₁ := updateEpisodeStatus env st episodeId EpisodeStatus.fetching
  let res := fetchWeatherData env.fetchEnv st₁.snapshots (some episodeId)
  let st₂ := { st₁ with snapshots := res.2 }
  match res.1.success, res.1.data with
  | true, some d => (Except.ok d, st₂)
  | _, _ =>
    (Except.error ("Failed to fetch weather data: " ++
       jsOrStr res.1.error "undefined"), st₂)

/-- Phase 2: mark `generating`; when Claude is configured, call the script
generator unconditionally and persist the returned script; when it is not,
warn and skip. -/
def phaseScript (env : CmdEnv) (st : CmdState) (episodeId : String)
    (opts : GenerateOptions) (weatherData : WeatherData)
    (episodeNumber : ℤ) : Except String Unit × CmdState :=
  let st₁ := updateEpisodeStatus env st episodeId EpisodeStatus.generating
  if env.claudeAvailable then
    let st₂ := { st₁ with scriptGenCalls := st₁.scriptGenCalls + 1 }
    match env.generateScript
      { weatherText := env.formatWeather weatherData,
        broadcastDate := opts.broadcastDate,
        broadcastTime := opts.broadcastTime,
        episodeNumber := episodeNumber,
        isStaleData := weatherData.isStale,
        staleAge := weatherData.staleAge,
        location := env.locationName } with
    | Except.error e => (Except.error e, st₂)
    | Except.ok scriptResult =>
      (Except.ok (),
       updateEpisodeRow st₂ episodeId (fun e =>
         { e with script := some scriptResult.script }))
  else (Except.ok (), st₁)

/-- Phase 3: when video output is enabled, mark `synthesizing` and (when
ElevenLabs is configured) synthesize audio and persist its path and
duration; returns the in-memory `audioPath`/`audioDuration` locals. -/
def phaseAudio (env : CmdEnv) (st : CmdState) (episodeId : String)
    (opts : GenerateOptions) (script outputDir : String)
    (episodeNumber : ℤ) : Except String (Option (String × ℚ)) × CmdState :=
  if opts.video then
    let st₁ := updateEpisodeStatus env st episodeId EpisodeStatus.synthesizing
    if env.elevenLabsAvailable then
      let st₂ := { st₁ with audioCalls := st₁.audioCalls + 1 }
      match env.synthesizeAudio script
        (pathJoin outputDir ("episode-" ++ toString episodeNumber ++ ".mp3")) with
      | Except.error e => (Except.error e, st₂)
      | Except.ok (audioPath, duration) =>
        (Except.ok (some (audioPath, duration)),
         updateEpisodeRow st₂ episodeId (fun e =>
           { e with audioPath := some audioPath,
                    durationSecs := some duration }))
    else (Except.ok none, st₁)
  else (Except.ok none, st)

/-- Phase 4: when image output is enabled and Gemini is configured, parse
the graphic cues and generate an image per cue through the artifact
cache. -/
def phaseImages (env : CmdEnv) (st : CmdState) (opts : GenerateOptions)
    (script outputDir : String) : Except String Unit × CmdState :=
  if opts.images then
    if env.geminiAvailable then
      let cues := env.parseCues script
      if cues.length = 0 then (Except.ok (), st)
      else
        let r := generateImagesForCues env.imgEnv st.img
          (cues.map GraphicCue.description) outputDir
        match r.1 with
        | Except.error e => (Except.error e, { st with img := r.2 })
        | Except.ok _ => (Except.ok (), { st with img := r.2 })
    else (Except.ok (), st)
  else (Except.ok (), st)

/-- The `weatherSummary` built for the end slide (field rendering of the
rational values is via `num/den`, presentation-only). -/
def mkWeatherSummary (wd : WeatherData) : WeatherSummary :=
  { temperature := toString wd.forecast.current.temperature.num ++ "°F",
    conditions := wd.forecast.current.conditions,
    wind := wd.forecast.current.windDirection ++ " " ++
      toString wd.forecast.current.windSpeed.num ++ " mph",
    hazards := wd.afd.hazards.map Hazard.hazardKind,
    outlook := "" }

/-- Phase 5: when video output is enabled, audio is present (non-empty
path, non-zero duration) and Remotion is available, mark `syncing`, build
the timeline, mark `composing`, render, and persist the video path. -/
def phaseVideo (env : CmdEnv) (st : CmdState) (episodeId : String)
    (opts : GenerateOptions) (script : String) (weatherData : WeatherData)
    (outputDir : String) (episodeNumber : ℤ)
    (audio : Option (String × ℚ)) : Except String Unit × CmdState :=
  if opts.video then
    match audio with
    | none => (Except.ok (), st)
    | some (audioPath, audioDuration) =>
      if audioPath = "" ∨ audioDuration = 0 then (Except.ok (), st)
      else if env.remotionAvailable then
        let st₁ := updateEpisodeStatus env st episodeId EpisodeStatus.syncing
        let cues := env.parseCues script
        let timeline := buildTimeline env.pathResolve env.nowIso
          { graphicCues := cues, audioPath := audioPath,
            audioDuration := audioDuration, imagesDir := outputDir,
            fps := none, broadcastDate := some env.nowIso,
            location := some env.locationName,
            weatherSummary := some (mkWeatherSummary weatherData) }
        let st₂ := updateEpisodeStatus env st₁ episodeId EpisodeStatus.composing
        let st₃ := { st₂ with renderCalls := st₂.renderCalls + 1 }
        match env.renderVideo timeline
          (pathJoin outputDir ("episode-" ++ toString episodeNumber ++ ".mp4")) with
        | Except.error e => (Except.error e, st₃)
        | Except.ok (videoPath, _secs) =>
          (Except.ok (),
           updateEpisodeRow st₃ episodeId (fun e =>
             { e with videoPath := some videoPath }))
      else (Except.ok (), st)
  else (Except.ok (), st)

/-- The generation pipeline run on an (existing or freshly created) episode
row: preview short-circuit, then fetch → script → re-read of the persisted
script (throwing when it is null or empty) → audio → images → timeline and
video → `done`. -/
def runPipeline (env : CmdEnv) (st : CmdState) (opts : GenerateOptions)
    (episodeId : String) (episodeNumber : ℤ) :
    Except String GenOutcome × CmdState :=
  if opts.preview then (Except.ok (GenOutcome.previewShown episodeNumber), st)
  else
    andThen (phaseFetch env st episodeId) (fun weatherData st =>
    andThen (phaseScript env st episodeId opts weatherData episodeNumber) (fun _ st =>
      let outputDir := pathJoin env.config.outputDir opts.broadcastDate
      match (findEpisodeById st episodeId).bind EpisodeRow.script with
      | none => (Except.error "No script available for audio synthesis", st)
      | some script =>
        if script = "" then
          (Except.error "No script available for audio synthesis", st)
        else
          andThen (phaseAudio env st episodeId opts script outputDir episodeNumber)
            (fun audio st =>
          andThen (phaseImages env st opts script outputDir) (fun _ st =>
          andThen (phaseVideo env st episodeId opts script weatherData outputDir
              episodeNumber audio) (fun _ st =>
            (Except.ok (GenOutcome.completed episodeNumber),
             updateEpisodeStatus env st episodeId EpisodeStatus.done))))))

/-- Model of `generateCommand` from `src/cli/commands/generate.ts`: look up the
episode row for the target broadcast date; a `done` row returns immediately
with the recorded artifact paths; any other row resumes the pipeline on it;
a missing row allocates the next number from
`orderBy(episodeNumber).limit(1)` (or the configured start) and creates the
row in `init`.  The surrounding `try/catch` reports a thrown error and
exits without further writes, which the `Except.error` result models. -/
def generateCommand (env : CmdEnv) (st : CmdState) (opts : GenerateOptions) :
    Except String GenOutcome × CmdState :=
  match findEpisodeByDate st opts.broadcastDate with
  | some episode =>
    if episode.status = EpisodeStatus.done then
      (Except.ok (GenOutcome.alreadyDone episode.audioPath episode.videoPath), st)
    else
      runPipeline env st opts episode.id episode.episodeNumber
  | none =>
    let episodeNumber :=
      match firstByNumberAsc st.episodes with
      | some lastEpisode => lastEpisode.episodeNumber + 1
      | none => env.config.episodeStartNumber
    let newRow : EpisodeRow :=
      { id := env.freshEpisodeId, broadcastDate := opts.broadcastDate,
        broadcastTime := opts.broadcastTime, episodeNumber := episodeNumber,
        status := EpisodeStatus.init, weatherDataTimestamp := none,
        weatherIsStale := false, script := none, audioPath := none,
        videoPath := none, durationSecs := none, updatedAt := none,
        completedAt := none, error := none }
    let st₁ := { st with episodes := st.episodes ++ [newRow] }
    runPipeline env st₁ opts newRow.id episodeNumber

/-! Sample data for concrete runs -/

/-- A sample parsed discussion document. -/
def afdW : AFDData :=
  { hazards := [], issueTime := "2025-01-01T10:00:00Z", rawText := "afd text" }

/-- A sample parsed digital forecast. -/
def forecastW : ForecastData :=
  { current := { temperature := 50, conditions := "Clear", windDirection := "N",
                 windSpeed := 5 },
    rawHtml := "<html>" }

/-- A concrete image-generator environment whose external generator always
succeeds. -/
def imgEnvW : ImgEnv :=
  { config := { styleVersion := 1, geminiApiKey := some "gkey" },
    generate := fun _ => Except.ok "imagebits",
    buildStyle := fun p t => p ++ "#" ++ t,
    now := "2025-01-02T00:00:00Z",
    freshId := fun n => "img-" ++ toString n }

/-- The empty image-generator state: no cache rows, no files on disk. -/
def imgSt0 : ImgState :=
  { cache := [], files := fun _ => false, genCalls := 0, idCounter := 0 }

/-- A fetcher environment whose every attempt succeeds. -/
def fetchEnvOk : FetchEnv :=
  { attemptResult := fun _ => Except.ok (afdW, forecastW), now := 1000,
    snapshotSaveOk := true, freshSnapshotId := "snap-1" }

/-- A fetcher environment whose every attempt fails with `network down`;
the current time is 5 hours (18 000 000 ms) past epoch 0. -/
def fetchEnvFail : FetchEnv :=
  { attemptResult := fun _ => Except.error "network down", now := 18000000,
    snapshotSaveOk := true, freshSnapshotId := "snap-1" }

/-- A concrete command environment over a given fetcher environment: Claude
configured (script generation returns `FRESH SCRIPT`), ElevenLabs, Gemini
and Remotion not configured. -/
def cmdEnvW (fe : FetchEnv) : CmdEnv :=
  { fetchEnv := fe, claudeAvailable := true,
    generateScript := fun _ => Except.ok
      { script := "FRESH SCRIPT", wordCount := 2, estimatedDurationSecs := 60,
        graphicCues := [] },
    formatWeather := fun _ => "weather text",
    elevenLabsAvailable := false,
    synthesizeAudio := fun _ _ => Except.error "no elevenlabs",
    geminiAvailable := false, imgEnv := imgEnvW, parseCues := fun _ => [],
    remotionAvailable := false,
    renderVideo := fun _ _ => Except.error "no remotion",
    pathResolve := id, nowIso := "2025-01-02T00:00:00Z", now := 42,
    locationName := "Denver, Colorado", freshEpisodeId := "ep-new",
    config := { episodeStartNumber := 1, outputDir := "./output" } }

/-- An episode row with the given identity, stage and script and all other
content fields empty. -/
def mkRow (id date : String) (n : ℤ) (status : EpisodeStatus)
    (script : Option String) : EpisodeRow :=
  { id := id, broadcastDate := date, broadcastTime := "22:00",
    episodeNumber := n, status := status, weatherDataTimestamp := none,
    weatherIsStale := false, script := script, audioPath := none,
    videoPath := none, durationSecs := none, updatedAt := none,
    completedAt := none, error := none }

/-- A command state holding the given episode rows and nothing else. -/
def mkCmdState (rows : List EpisodeRow) : CmdState :=
  { episodes := rows, snapshots := [], img := imgSt0, scriptGenCalls := 0,
    audioCalls := 0, renderCalls := 0 }

/-- A `done` row with recorded artifact paths, for the C8 witness. -/
def doneRowW : EpisodeRow :=
  { mkRow "ep0" "2025-01-01" 1 EpisodeStatus.done (some "script") with
    audioPath := some "./output/2025-01-01/episode-1.mp3",
    videoPath := some "./output/2025-01-01/episode-1.mp4" }

/-- Options targeting the date of `doneRowW`, with all stages enabled. -/
def opts8 : GenerateOptions :=
  { broadcastDate := "2025-01-01", broadcastTime := "22:00", preview := false,
    images := true, video := true }

/-- A persisted row in stage `generating` whose narration text is already
non-empty. -/
def cmdSt1 : CmdState :=
  mkCmdState [mkRow "ep1" "2025-01-02" 4 EpisodeStatus.generating
    (some "OLD SCRIPT")]

/-- Options resuming the date of `cmdSt1`'s row (audio/images/video stages
disabled to isolate the narration stage). -/
def opts1 : GenerateOptions :=
  { broadcastDate := "2025-01-02", broadcastTime := "22:00", preview := false,
    images := false, video := false }

/-- Options for a fresh date with audio/images/video disabled. -/
def opts2 : GenerateOptions :=
  { broadcastDate := "2025-01-03", broadcastTime := "22:00", preview := false,
    images := false, video := false }

/-- Two persisted episodes numbered 1 and 2. -/
def cmdSt5 : CmdState :=
  mkCmdState [mkRow "ep1" "2025-01-01" 1 EpisodeStatus.done (some "s1"),
              mkRow "ep2" "2025-01-02" 2 EpisodeStatus.done (some "s2")]

/-- Preview options for a third date (preview mode returns right after the
row is created, isolating number allocation). -/
def opts5 : GenerateOptions :=
  { broadcastDate := "2025-01-03", broadcastTime := "22:00", preview := true,
    images := true, video := true }

/-- A sample weather record fetched at epoch 0. -/
def weatherW : WeatherData :=
  { afd := afdW, forecast := forecastW, fetchedAt := 0, isStale := false,
    staleAge := none }

/-- A snapshot fetched at epoch 0 — 5 hours before `fetchEnvFail.now`. -/
def snapW : WeatherSnapshot :=
  { id := "snap-0", episodeId := none, afdRaw := "afd", forecastRaw := "<html>",
    parsedData := weatherW, fetchedAt := 0, nwsIssuedAt := none }

/-- First image request of the C6 scenarios (output path `out/a.png`). -/
def req6a : ImageGenerationRequest :=
  { prompt := "storm clouds", imageType := "atmospheric",
    outputPath := "out/a.png" }

/-- Second image request of the C6 scenarios: same prompt, type and style
epoch, different output path. -/
def req6b : ImageGenerationRequest :=
  { prompt := "storm clouds", imageType := "atmospheric",
    outputPath := "out/b.png" }

/-- A cache row whose backing artifact file will be missing on disk. -/
def brokenEntry : ImageCacheEntry :=
  { id := "img-old",
    promptHash := generateCacheKey imgEnvW.config "storm clouds" "atmospheric",
    imageType := "atmospheric", styleVersion := 1,
    imagePath := "cache/old.png", prompt := "storm clouds",
    generatorModel := imagenModel, lastUsedAt := none, useCount := some 1 }

/-- A state holding only `brokenEntry`, with no files on disk. -/
def imgSt7 : ImgState :=
  { cache := [brokenEntry], files := fun _ => false, genCalls := 0,
    idCounter := 5 }

/-- A request for the C10 witness. -/
def req10 : ImageGenerationRequest :=
  { prompt := "lightning", imageType := "weather_graphic",
    outputPath := "out/l.png" }

/-- A 5-second cue, as in the spec's concrete timeline scenario. -/
def cueW (i : ℕ) : GraphicCue :=
  { index := i, description := "cue " ++ toString i, duration := 5,
    cueType := "weather_graphic", position := 0, contextText := "" }

/-- The spec's concrete timeline scenario: 4 cues of 5 s, audio 27 s,
30 fps. -/
def opts3W : TimelineBuildOptions :=
  { graphicCues := [cueW 0, cueW 1, cueW 2, cueW 3], audioPath := "ep.mp3",
    audioDuration := 27, imagesDir := "imgs", fps := some 30,
    broadcastDate := some "2025-01-02T22:00:00Z",
    location := some "Denver, Colorado", weatherSummary := none }

/-- An empty cue list with audio duration 0.07 s at 30 fps:
`0.07 × 30 = 2.1`, whose ceiling (3) and rounding (2) differ. -/
def opts9W : TimelineBuildOptions :=
  { graphicCues := [], audioPath := "ep.mp3", audioDuration := 7/100,
    imagesDir := "d", fps := some 30, broadcastDate := some "bd",
    location := some "loc", weatherSummary := none }

/-- Segments tile the interval from `start` to `fin`: each segment begins
where its predecessor ended, the first at `start`, the last ending at
`fin`. -/
def Chained : ℤ → List TimelineSegment → ℤ → Prop
  | start, [], fin => fin = start
  | start, s :: rest, fin => s.startFrame = start ∧ Chained s.endFrame rest fin

/-- The stale record derived from a fallback snapshot: the snapshot's
parsed payload marked stale with its age in whole hours at time `now`. -/
def staleOf (now : ℤ) (s : WeatherSnapshot) : WeatherData :=
  { s.parsedData with
    isStale := true,
    staleAge := some (round (((now - s.fetchedAt : ℤ) : ℚ) / (1000 * 60 * 60))) }

/-! Supporting lemmas for the timeline invariants -/

lemma round_nonneg_of_nonneg {x : ℚ} (hx : 0 ≤ x) : 0 ≤ round x := by
  rw [round_eq]
  refine Int.le_floor.mpr ?h
  push_cast
  linarith

lemma buildLoop_spec (imagesDir : String) (scale fps : ℚ) (total : ℤ)
    (hscale : 0 ≤ scale) (hfps : 0 ≤ fps) :
    ∀ (cues : List GraphicCue) (i : ℕ) (cur : ℤ), cur ≤ total →
    (∀ c ∈ cues, 0 ≤ cueHint c) →
    Chained cur (buildLoop imagesDir scale fps total cues i cur).1
      (buildLoop imagesDir scale fps total cues i cur).2 ∧
    cur ≤ (buildLoop imagesDir scale fps total cues i cur).2 ∧
    (buildLoop imagesDir scale fps total cues i cur).2 ≤ total ∧
    ∀ s ∈ (buildLoop imagesDir scale fps total cues i cur).1,
      s.startFrame ≤ s.endFrame := by
  intro cues
  induction cues with
  | nil =>
    intro i cur hcur _
    simp [buildLoop, Chained, hcur]
  | cons c rest ih =>
    intro i cur hcur hall
    have hc0 : 0 ≤ cueHint c := hall c (List.mem_cons_self c rest)
    have hdf : 0 ≤ round (cueHint c * scale * fps) :=
      round_nonneg_of_nonneg (mul_nonneg (mul_nonneg hc0 hscale) hfps)
    have hef1 : cur ≤ min (cur + round (cueHint c * scale * fps)) total :=
      le_min (by linarith) hcur
    have hef2 : min (cur + round (cueHint c * scale * fps)) total ≤ total :=
      min_le_right _ _
    have hrest := ih (i + 1) (min (cur + round (cueHint c * scale * fps)) total)
      hef2 (fun x hx => hall x (List.mem_cons_of_mem _ hx))
    simp only [buildLoop]
    refine ⟨⟨rfl, hrest.1⟩, le_trans hef1 hrest.2.1, hrest.2.2.1, ?_⟩
    intro s hs
    rcases List.mem_cons.mp hs with h | h
    · subst h
      exact hef1
    · exact hrest.2.2.2 s h

lemma extendLast_spec (total : ℤ) :
    ∀ (segs : List TimelineSegment) (start fin : ℤ),
    Chained start segs fin → fin ≤ total →
    (∀ s ∈ segs, s.startFrame ≤ s.endFrame) → segs ≠ [] →
    Chained start (extendLast total segs) total ∧
    ∀ s ∈ extendLast total segs, s.startFrame ≤ s.endFrame
  | [], _, _, _, _, _, hne => absurd rfl hne
  | [s], start, fin, hch, hle, hw, _ => by
    obtain ⟨h1, h2⟩ := hch
    have hfin : fin = s.endFrame := h2
    refine ⟨⟨h1, rfl⟩, ?_⟩
    intro x hx
    simp only [extendLast, List.mem_singleton] at hx
    subst hx
    have := hw s (List.mem_singleton_self s)
    simp only []
    omega
  | s :: t :: rest, start, fin, hch, hle, hw, _ => by
    obtain ⟨h1, h2⟩ := hch
    have ihres := extendLast_spec total (t :: rest) s.endFrame fin h2 hle
      (fun x hx => hw x (List.mem_cons_of_mem _ hx)) (by simp)
    refine ⟨⟨h1, ihres.1⟩, ?_⟩
    intro x hx
    rcases List.mem_cons.mp hx with h | h
    · subst h
      exact hw x (List.mem_cons_self _ _)
    · exact ihres.2 x h

lemma chained_adjacent :
    ∀ (segs : List TimelineSegment) (start fin : ℤ), Chained start segs fin →
    List.Chain' (fun a b => a.endFrame = b.startFrame) segs
  | [], _, _, _ => List.chain'_nil
  | [_], _, _, _ => List.chain'_singleton _
  | s :: t :: rest, start, fin, hch => by
    obtain ⟨h1, h2, h3⟩ := hch
    exact List.chain'_cons.mpr
      ⟨h2.symm, chained_adjacent (t :: rest) t.startFrame fin ⟨rfl, h3⟩⟩

lemma chained_sorted :
    ∀ (segs : List TimelineSegment) (start fin : ℤ), Chained start segs fin →
    (∀ s ∈ segs, s.startFrame ≤ s.endFrame) →
    List.Chain' (fun a b => a.startFrame ≤ b.startFrame) segs
  | [], _, _, _, _ => List.chain'_nil
  | [_], _, _, _, _ => List.chain'_singleton _
  | s :: t :: rest, start, fin, hch, hw => by
    obtain ⟨h1, h2, h3⟩ := hch
    refine List.chain'_cons.mpr ⟨?_, ?_⟩
    · have := hw s (List.mem_cons_self _ _)
      omega
    · exact chained_sorted (t :: rest) t.startFrame fin ⟨rfl, h3⟩
        (fun x hx => hw x (List.mem_cons_of_mem _ hx))

lemma chained_head :
    ∀ (segs : List TimelineSegment) (start fin : ℤ), Chained start segs fin →
    segs ≠ [] → (segs.map TimelineSegment.startFrame).head? = some start
  | [], _, _, _, hne => absurd rfl hne
  | s :: rest, start, fin, hch, _ => by
    obtain ⟨h1, _⟩ := hch
    simp [h1]

lemma chained_last :
    ∀ (segs : List TimelineSegment) (start fin : ℤ), Chained start segs fin →
    segs ≠ [] → (segs.map TimelineSegment.endFrame).getLast? = some fin
  | [], _, _, _, hne => absurd rfl hne
  | [s], start, fin, hch, _ => by
    obtain ⟨_, h2⟩ := hch
    have h2' : fin = s.endFrame := h2
    simp [h2']
  | s :: t :: rest, start, fin, hch, _ => by
    obtain ⟨h1, h2⟩ := hch
    have := chained_last (t :: rest) s.endFrame fin h2 (by simp)
    simpa using this

lemma cueHint_pos {c : GraphicCue} (h : 0 < c.duration) : 0 < cueHint c := by
  unfold cueHint
  rw [if_neg h.ne']
  exact h

lemma foldl_hint_le : ∀ (l : List GraphicCue) (a : ℚ),
    (∀ c ∈ l, 0 ≤ cueHint c) → a ≤ l.foldl (fun s c => s + cueHint c) a
  | [], a, _ => le_refl a
  | c :: rest, a, h => by
    have h1 : 0 ≤ cueHint c := h c (List.mem_cons_self _ _)
    have h2 := foldl_hint_le rest (a + cueHint c)
      (fun x hx => h x (List.mem_cons_of_mem _ hx))
    simp only [List.foldl_cons]
    linarith

lemma sumHints_pos : ∀ (cues : List GraphicCue), cues ≠ [] →
    (∀ c ∈ cues, 0 < c.duration) → 0 < sumHints cues
  | [], hne, _ => absurd rfl hne
  | c :: rest, _, h => by
    have h1 : 0 < cueHint c := cueHint_pos (h c (List.mem_cons_self _ _))
    have h2 := foldl_hint_le rest (0 + cueHint c)
      (fun x hx => le_of_lt (cueHint_pos (h x (List.mem_cons_of_mem _ hx))))
    unfold sumHints
    simp only [List.foldl_cons]
    linarith

lemma buildLoop_ne_nil (imagesDir : String) (scale fps : ℚ) (total : ℤ) :
    ∀ (cues : List GraphicCue) (i : ℕ) (cur : ℤ), cues ≠ [] →
    (buildLoop imagesDir scale fps total cues i cur).1 ≠ []
  | [], _, _, hne => absurd rfl hne
  | c :: rest, i, cur, _ => by simp [buildLoop]

lemma extendLast_ne_nil (total : ℤ) :
    ∀ (segs : List TimelineSegment), segs ≠ [] → extendLast total segs ≠ []
  | [], hne => absurd rfl hne
  | [s], _ => by simp [extendLast]
  | s :: t :: rest, _ => by simp [extendLast]

/-! Claim C1 — resumption re-invokes the narration generator -/

/-- Claim C1 is violated by the code: on a row found in stage `generating`
with non-empty narration text, re-invoking `generateCommand` for that date
calls the narration generator again (the call counter goes 0 → 1) and even
overwrites the persisted script, instead of skipping to `synthesizing`; the
run also re-enters `fetching` rather than the first stage without persisted
output. -/
theorem claim1_resume_reinvokes_generator :
    ((findEpisodeByDate cmdSt1 "2025-01-02").map EpisodeRow.status =
        some EpisodeStatus.generating ∧
     (findEpisodeByDate cmdSt1 "2025-01-02").bind EpisodeRow.script =
        some "OLD SCRIPT" ∧
     cmdSt1.scriptGenCalls = 0) ∧
    (generateCommand (cmdEnvW fetchEnvOk) cmdSt1 opts1).2.scriptGenCalls = 1 ∧
    (findEpisodeById (generateCommand (cmdEnvW fetchEnvOk) cmdSt1 opts1).2
        "ep1").bind EpisodeRow.script = some "FRESH SCRIPT" :=
  ⟨⟨rfl, rfl, rfl⟩, rfl, rfl⟩

/-! Claim C2 — a failed stage does not persist an `error` status -/

/-- Claim C2 is violated by the code: when a stage throws (here: weather
acquisition fails all attempts with no fallback snapshot), the `catch`
block only reports and exits — the episode row is left with status
`fetching` (the in-flight stage) and a `null` error column; no `error`
status and no error detail are ever persisted. -/
theorem claim2_error_not_persisted :
    (generateCommand (cmdEnvW fetchEnvFail) (mkCmdState []) opts2).1 =
      Except.error "Failed to fetch weather data: network down" ∧
    (findEpisodeById
        (generateCommand (cmdEnvW fetchEnvFail) (mkCmdState []) opts2).2
        "ep-new").map EpisodeRow.status = some EpisodeStatus.fetching ∧
    (findEpisodeById
        (generateCommand (cmdEnvW fetchEnvFail) (mkCmdState []) opts2).2
        "ep-new").map EpisodeRow.error = some none :=
  ⟨rfl, rfl, rfl⟩

/-! Claim C3 — timeline coverage invariants -/

/-- Claim C3: for every non-empty cue list with positive durations, every
positive audio duration and positive frame rate, the produced timeline has
`durationInFrames = ⌈duration × fps⌉` and its segments are non-empty,
start at frame 0, are pairwise contiguous (`endFrame = next.startFrame`),
end exactly at `durationInFrames`, have non-negative width, and are ordered
by start frame. -/
theorem claim3_timeline_invariants (resolve : String → String) (nowIso : String)
    (opts : TimelineBuildOptions) (F : ℚ)
    (hfps : opts.fps = some F) (hF : 0 < F) (hD : 0 < opts.audioDuration)
    (hne : opts.graphicCues ≠ [])
    (hpos : ∀ c ∈ opts.graphicCues, 0 < c.duration) :
    (buildTimeline resolve nowIso opts).durationInFrames =
      ⌈opts.audioDuration * F⌉ ∧
    (buildTimeline resolve nowIso opts).segments ≠ [] ∧
    ((buildTimeline resolve nowIso opts).segments.map
        TimelineSegment.startFrame).head? = some 0 ∧
    ((buildTimeline resolve nowIso opts).segments.map
        TimelineSegment.endFrame).getLast? =
      some (buildTimeline resolve nowIso opts).durationInFrames ∧
    List.Chain' (fun a b => a.endFrame = b.startFrame)
      (buildTimeline resolve nowIso opts).segments ∧
    (∀ s ∈ (buildTimeline resolve nowIso opts).segments,
      0 ≤ s.endFrame - s.startFrame) ∧
    List.Chain' (fun a b => a.startFrame ≤ b.startFrame)
      (buildTimeline resolve nowIso opts).segments := by
  have hfe : effectiveFps opts.fps = F := by
    simp [effectiveFps, hfps, hF.ne']
  have hsum : 0 < sumHints opts.graphicCues := sumHints_pos _ hne hpos
  have hscale : 0 ≤ opts.audioDuration / sumHints opts.graphicCues :=
    le_of_lt (div_pos hD hsum)
  have htot : (0:ℤ) < ⌈opts.audioDuration * F⌉ :=
    Int.ceil_pos.mpr (mul_pos hD hF)
  have hcond : (opts.graphicCues.length = 0) = False := by simp [hne]
  simp only [buildTimeline, hfe, hcond, if_false]
  set total : ℤ := ⌈opts.audioDuration * F⌉ with htotal
  set r := buildLoop (resolve opts.imagesDir)
    (opts.audioDuration / sumHints opts.graphicCues) F total
    opts.graphicCues 0 0 with hrdef
  have hmain := buildLoop_spec (resolve opts.imagesDir)
    (opts.audioDuration / sumHints opts.graphicCues) F total hscale
    (le_of_lt hF) opts.graphicCues 0 0 (le_of_lt htot)
    (fun c hc => le_of_lt (cueHint_pos (hpos c hc)))
  rw [← hrdef] at hmain
  have hr1 : r.1 ≠ [] := by
    rw [hrdef]
    exact buildLoop_ne_nil _ _ _ _ opts.graphicCues 0 0 hne
  have hwidth : ∀ s ∈ r.1, s.startFrame ≤ s.endFrame := hmain.2.2.2
  by_cases hcase : 0 < r.1.length ∧ r.2 < total
  · rw [if_pos hcase]
    have hext := extendLast_spec total r.1 0 r.2 hmain.1
      (le_of_lt hcase.2) hwidth hr1
    have hnn := extendLast_ne_nil total r.1 hr1
    refine ⟨trivial, hnn, chained_head _ 0 total hext.1 hnn,
      chained_last _ 0 total hext.1 hnn,
      chained_adjacent _ 0 total hext.1, ?_,
      chained_sorted _ 0 total hext.1 hext.2⟩
    intro s hs
    have := hext.2 s hs
    omega
  · rw [if_neg hcase]
    have hlenpos : 0 < r.1.length := List.length_pos.mpr hr1
    have heq : r.2 = total := by
      rcases not_and_or.mp hcase with h | h
      · exact absurd hlenpos h
      · omega
    rw [heq] at hmain
    refine ⟨trivial, hr1, chained_head _ 0 total hmain.1 hr1,
      chained_last _ 0 total hmain.1 hr1,
      chained_adjacent _ 0 total hmain.1, ?_,
      chained_sorted _ 0 total hmain.1 hwidth⟩
    intro s hs
    have := hwidth s hs
    omega

/-- Witness for C3 at the spec's concrete scenario: 4 cues of 5 s, audio
27 s, 30 fps. -/
theorem claim3_witness :
    (opts3W.fps = some 30 ∧ (0:ℚ) < 30 ∧ (0:ℚ) < opts3W.audioDuration ∧
     opts3W.graphicCues ≠ [] ∧ ∀ c ∈ opts3W.graphicCues, 0 < c.duration) ∧
    ((buildTimeline id "now" opts3W).durationInFrames =
        ⌈opts3W.audioDuration * 30⌉ ∧
     (buildTimeline id "now" opts3W).segments ≠ [] ∧
     ((buildTimeline id "now" opts3W).segments.map
         TimelineSegment.startFrame).head? = some 0 ∧
     ((buildTimeline id "now" opts3W).segments.map
         TimelineSegment.endFrame).getLast? =
       some (buildTimeline id "now" opts3W).durationInFrames ∧
     List.Chain' (fun a b => a.endFrame = b.startFrame)
       (buildTimeline id "now" opts3W).segments ∧
     (∀ s ∈ (buildTimeline id "now" opts3W).segments,
       0 ≤ s.endFrame - s.startFrame) ∧
     List.Chain' (fun a b => a.startFrame ≤ b.startFrame)
       (buildTimeline id "now" opts3W).segments) :=
  ⟨⟨rfl, by decide, by decide, by decide, by decide⟩,
   claim3_timeline_invariants id "now" opts3W 30 rfl (by decide) (by decide)
     (by decide) (by decide)⟩

/-! Claim C4 — fetch fallback correctness -/

/-- Claim C4: when all 3 fetch attempts fail, `fetchWeatherData` throws no
exception and leaves the snapshot table unchanged; if at least one snapshot
exists it returns success with the most recent snapshot's payload marked
stale with `staleAge = round((now − fetchedAt) / 1 h)` and
`usedFallback = true`; with no snapshot at all it returns
`success = false` with the last attempt's error message. -/
theorem claim4_fetch_fallback (env : FetchEnv) (snaps : List WeatherSnapshot)
    (episodeId : Option String) (e₁ e₂ e₃ : String)
    (h1 : env.attemptResult 1 = Except.error e₁)
    (h2 : env.attemptResult 2 = Except.error e₂)
    (h3 : env.attemptResult 3 = Except.error e₃) :
    (fetchWeatherData env snaps episodeId).2 = snaps ∧
    (∀ s, mostRecentSnapshot snaps = some s →
      (fetchWeatherData env snaps episodeId).1 =
        { success := true, data := some (staleOf env.now s),
          error := none, usedFallback := true }) ∧
    (mostRecentSnapshot snaps = none →
      (fetchWeatherData env snaps episodeId).1 =
        { success := false, data := none,
          error := some (jsOrStr (some e₃) "Unknown error fetching weather data"),
          usedFallback := false }) := by
  have step : ∀ (fuel : ℕ) (le : Option String) (msg : String),
      env.attemptResult (MAX_RETRIES - fuel) = Except.error msg →
      fetchGo env episodeId (fuel + 1) le snaps =
        fetchGo env episodeId fuel (some msg) snaps := by
    intro fuel le msg h
    simp only [fetchGo, h]
  have hrun : fetchWeatherData env snaps episodeId =
      fetchGo env episodeId 0 (some e₃) snaps := by
    have t1 := step 2 none e₁ h1
    have t2 := step 1 (some e₁) e₂ h2
    have t3 := step 0 (some e₂) e₃ h3
    calc fetchWeatherData env snaps episodeId
        = fetchGo env episodeId 3 none snaps := rfl
      _ = fetchGo env episodeId 2 (some e₁) snaps := t1
      _ = fetchGo env episodeId 1 (some e₂) snaps := t2
      _ = fetchGo env episodeId 0 (some e₃) snaps := t3
  rw [hrun]
  refine ⟨?_, ?_, ?_⟩
  · cases hms : mostRecentSnapshot snaps with
    | none => simp [fetchGo, getFallbackData, hms]
    | some s => simp [fetchGo, getFallbackData, hms]
  · intro s hms
    simp [fetchGo, getFallbackData, hms, staleOf]
  · intro hms
    simp [fetchGo, getFallbackData, hms]

/-- Witness for C4: three failed attempts with one snapshot fetched 5 hours
earlier give a stale success with `staleAge = 5`; with no snapshot, a
failure carrying the last error. -/
theorem claim4_witness :
    (fetchWeatherData fetchEnvFail [snapW] none).1 =
      { success := true, data := some (staleOf fetchEnvFail.now snapW),
        error := none, usedFallback := true } ∧
    (staleOf fetchEnvFail.now snapW).staleAge = some 5 ∧
    (fetchWeatherData fetchEnvFail [] none).1 =
      { success := false, data := none,
        error := some (jsOrStr (some "network down")
          "Unknown error fetching weather data"),
        usedFallback := false } :=
  ⟨(claim4_fetch_fallback fetchEnvFail [snapW] none "network down"
      "network down" "network down" rfl rfl rfl).2.1 snapW rfl,
   by
     simp only [staleOf, fetchEnvFail, snapW, weatherW, Option.some.injEq]
     norm_num [round_eq],
   (claim4_fetch_fallback fetchEnvFail [] none "network down" "network down"
      "network down" rfl rfl rfl).2.2 rfl⟩

/-! Claim C5 — the new episode number comes from the minimum, not the maximum -/

/-- Claim C5 is violated by the code: with episodes numbered 1 and 2
persisted, the next episode is allocated number 2 — one greater than the
*minimum* (the `orderBy(episodeNumber).limit(1)` query is ascending), a
duplicate of an existing number — instead of one greater than the maximum
(which would be 3). -/
theorem claim5_number_from_minimum :
    (cmdSt5.episodes.map EpisodeRow.episodeNumber = [1, 2]) ∧
    (generateCommand (cmdEnvW fetchEnvOk) cmdSt5 opts5).1 =
      Except.ok (GenOutcome.previewShown 2) ∧
    (findEpisodeById (generateCommand (cmdEnvW fetchEnvOk) cmdSt5 opts5).2
        "ep-new").map EpisodeRow.episodeNumber = some 2 ∧
    (2 : ℤ) ≠ 2 + 1 :=
  ⟨rfl, rfl, rfl, by decide⟩

/-! Claim C6 — cache idempotence -/

/-- Claim C6 counterexample: two calls with identical prompt, image type
and style version but different requested output paths.  The second call
does report `cached = true` (and the generator ran only once), but it
returns its own output path `out/b.png`, not the first call's artifact
reference `out/a.png` — refuting the claim's "returns the same artifact
reference as the first". -/
theorem claim6_counterexample :
    (generateImage imgEnvW imgSt0 req6a).1 =
      Except.ok { imagePath := "out/a.png", prompt := "storm clouds",
                  cached := false } ∧
    (generateImage imgEnvW (generateImage imgEnvW imgSt0 req6a).2 req6b).1 =
      Except.ok { imagePath := "out/b.png", prompt := "storm clouds",
                  cached := true } ∧
    ("out/b.png" : String) ≠ "out/a.png" :=
  ⟨rfl, rfl, by decide⟩

/-- Claim C6 (amended): starting from a state with no cache row for the
key, two sequential `generateImage` calls with identical prompt, image
type and style version invoke the external generator exactly once; the
second call reports `cached = true` and returns its caller-supplied output
path — to which the cached artifact has been copied — which coincides with
the first call's returned reference exactly when both calls request the
same output path. -/
theorem claim6_cache_idempotence (env : ImgEnv) (st : ImgState)
    (p t o₁ o₂ k d : String)
    (hnone : cacheLookup st.cache (generateCacheKey env.config p t) t
        env.config.styleVersion = none)
    (hk : env.config.geminiApiKey = some k)
    (hgen : env.generate (env.buildStyle p t) = Except.ok d) :
    (generateImage env st { prompt := p, imageType := t, outputPath := o₁ }).1 =
      Except.ok { imagePath := o₁, prompt := p, cached := false } ∧
    (generateImage env
        (generateImage env st
          { prompt := p, imageType := t, outputPath := o₁ }).2
        { prompt := p, imageType := t, outputPath := o₂ }).1 =
      Except.ok { imagePath := o₂, prompt := p, cached := true } ∧
    (generateImage env
        (generateImage env st
          { prompt := p, imageType := t, outputPath := o₁ }).2
        { prompt := p, imageType := t, outputPath := o₂ }).2.genCalls =
      st.genCalls + 1 ∧
    (generateImage env
        (generateImage env st
          { prompt := p, imageType := t, outputPath := o₁ }).2
        { prompt := p, imageType := t, outputPath := o₂ }).2.files o₂ =
      true := by
  have hcc1 : checkCache env st (generateCacheKey env.config p t) t =
      (none, st) := by
    simp [checkCache, hnone]
  have h1 : generateImage env st
      { prompt := p, imageType := t, outputPath := o₁ } =
      (Except.ok { imagePath := o₁, prompt := p, cached := false },
       { cache := st.cache ++
           [{ id := env.freshId st.idCounter,
              promptHash := generateCacheKey env.config p t, imageType := t,
              styleVersion := env.config.styleVersion, imagePath := o₁,
              prompt := p, generatorModel := imagenModel, lastUsedAt := none,
              useCount := some 1 }],
         files := setFile st.files o₁, genCalls := st.genCalls + 1,
         idCounter := st.idCounter + 1 }) := by
    simp [generateImage, hcc1, hk, hgen, saveToCache, setFile]
  rw [h1]
  have hfind : List.find? (fun c =>
      c.promptHash == generateCacheKey env.config p t && c.imageType == t &&
        c.styleVersion == env.config.styleVersion) st.cache = none := hnone
  simp [generateImage, checkCache, cacheLookup, List.find?_append, hfind,
    setFile]

/-- Witness for C6 (amended) at the `req6a`/`req6b` scenario. -/
theorem claim6_witness :
    (generateImage imgEnvW imgSt0
        { prompt := "storm clouds", imageType := "atmospheric",
          outputPath := "out/a.png" }).1 =
      Except.ok { imagePath := "out/a.png", prompt := "storm clouds",
                  cached := false } ∧
    (generateImage imgEnvW
        (generateImage imgEnvW imgSt0
          { prompt := "storm clouds", imageType := "atmospheric",
            outputPath := "out/a.png" }).2
        { prompt := "storm clouds", imageType := "atmospheric",
          outputPath := "out/b.png" }).1 =
      Except.ok { imagePath := "out/b.png", prompt := "storm clouds",
                  cached := true } ∧
    (generateImage imgEnvW
        (generateImage imgEnvW imgSt0
          { prompt := "storm clouds", imageType := "atmospheric",
            outputPath := "out/a.png" }).2
        { prompt := "storm clouds", imageType := "atmospheric",
          outputPath := "out/b.png" }).2.genCalls = imgSt0.genCalls + 1 ∧
    (generateImage imgEnvW
        (generateImage imgEnvW imgSt0
          { prompt := "storm clouds", imageType := "atmospheric",
            outputPath := "out/a.png" }).2
        { prompt := "storm clouds", imageType := "atmospheric",
          outputPath := "out/b.png" }).2.files "out/b.png" = true :=
  claim6_cache_idempotence imgEnvW imgSt0 "storm clouds" "atmospheric"
    "out/a.png" "out/b.png" "gkey" "imagebits" rfl rfl rfl

/-! Claim C7 — cache self-healing -/

/-- Claim C7: a matching cache row whose backing artifact file no longer
exists behaves as a miss — the external generator is invoked (counter +1),
a usable artifact is produced at the requested output path with
`cached = false`, a new cache row is appended without overwriting or
deleting the broken row (which remains in the table) — and no error is
raised. -/
theorem claim7_cache_self_healing (env : ImgEnv) (st : ImgState)
    (p t o k d : String) (e : ImageCacheEntry)
    (hfound : cacheLookup st.cache (generateCacheKey env.config p t) t
        env.config.styleVersion = some e)
    (hmissing : st.files e.imagePath = false)
    (hk : env.config.geminiApiKey = some k)
    (hgen : env.generate (env.buildStyle p t) = Except.ok d) :
    (generateImage env st { prompt := p, imageType := t, outputPath := o }).1 =
      Except.ok { imagePath := o, prompt := p, cached := false } ∧
    (generateImage env st
        { prompt := p, imageType := t, outputPath := o }).2.genCalls =
      st.genCalls + 1 ∧
    (generateImage env st
        { prompt := p, imageType := t, outputPath := o }).2.files o = true ∧
    (generateImage env st
        { prompt := p, imageType := t, outputPath := o }).2.cache =
      st.cache ++
        [{ id := env.freshId st.idCounter,
           promptHash := generateCacheKey env.config p t, imageType := t,
           styleVersion := env.config.styleVersion, imagePath := o,
           prompt := p, generatorModel := imagenModel, lastUsedAt := none,
           useCount := some 1 }] ∧
    e ∈ (generateImage env st
        { prompt := p, imageType := t, outputPath := o }).2.cache := by
  have hcc : checkCache env st (generateCacheKey env.config p t) t =
      (none, st) := by
    simp [checkCache, hfound, hmissing]
  have hmem : e ∈ st.cache := List.mem_of_find?_eq_some hfound
  simp [generateImage, hcc, hk, hgen, saveToCache, setFile, hmem]

/-- Witness for C7 at the `brokenEntry` state: the row matches but its file
`cache/old.png` does not exist. -/
theorem claim7_witness :
    (generateImage imgEnvW imgSt7
        { prompt := "storm clouds", imageType := "atmospheric",
          outputPath := "out/c.png" }).1 =
      Except.ok { imagePath := "out/c.png", prompt := "storm clouds",
                  cached := false } ∧
    (generateImage imgEnvW imgSt7
        { prompt := "storm clouds", imageType := "atmospheric",
          outputPath := "out/c.png" }).2.genCalls = imgSt7.genCalls + 1 ∧
    (generateImage imgEnvW imgSt7
        { prompt := "storm clouds", imageType := "atmospheric",
          outputPath := "out/c.png" }).2.files "out/c.png" = true ∧
    (generateImage imgEnvW imgSt7
        { prompt := "storm clouds", imageType := "atmospheric",
          outputPath := "out/c.png" }).2.cache =
      imgSt7.cache ++
        [{ id := imgEnvW.freshId imgSt7.idCounter,
           promptHash := generateCacheKey imgEnvW.config "storm clouds"
             "atmospheric",
           imageType := "atmospheric",
           styleVersion := imgEnvW.config.styleVersion,
           imagePath := "out/c.png", prompt := "storm clouds",
           generatorModel := imagenModel, lastUsedAt := none,
           useCount := some 1 }] ∧
    brokenEntry ∈ (generateImage imgEnvW imgSt7
        { prompt := "storm clouds", imageType := "atmospheric",
          outputPath := "out/c.png" }).2.cache :=
  claim7_cache_self_healing imgEnvW imgSt7 "storm clouds" "atmospheric"
    "out/c.png" "gkey" "imagebits" brokenEntry rfl rfl rfl rfl

/-! Claim C8 — a `done` row short-circuits -/

/-- Claim C8: whenever the episode row found for the target broadcast date
has status `done`, `generateCommand` returns the already-recorded audio and
video artifact paths and leaves the entire state unchanged — no row is
created and no stage work (no status write, no collaborator call) is
performed. -/
theorem claim8_done_idempotent (env : CmdEnv) (st : CmdState)
    (opts : GenerateOptions) (e : EpisodeRow)
    (hfind : findEpisodeByDate st opts.broadcastDate = some e)
    (hdone : e.status = EpisodeStatus.done) :
    generateCommand env st opts =
      (Except.ok (GenOutcome.alreadyDone e.audioPath e.videoPath), st) := by
  unfold generateCommand
  rw [hfind]
  simp [hdone]

/-- Witness for C8 at a concrete state holding one `done` row. -/
theorem claim8_witness :
    generateCommand (cmdEnvW fetchEnvOk) (mkCmdState [doneRowW]) opts8 =
      (Except.ok (GenOutcome.alreadyDone
        (some "./output/2025-01-01/episode-1.mp3")
        (some "./output/2025-01-01/episode-1.mp4")),
       mkCmdState [doneRowW]) :=
  claim8_done_idempotent (cmdEnvW fetchEnvOk) (mkCmdState [doneRowW]) opts8
    doneRowW rfl rfl

/-! Claim C9 — empty cue list yields one placeholder segment -/

/-- Claim C9 counterexample: with zero cues, audio duration 0.07 s and
fps 30, the produced single segment spans `[0, 3)` — `ceil(0.07 × 30) = 3`
frames — whereas the claim's `round(0.07 × 30) = 2`; so the segment does
not span `[0, round(duration × fps))`. -/
theorem claim9_counterexample :
    ((buildTimeline id "now" opts9W).segments.map
        (fun s => (s.startFrame, s.endFrame))) = [(0, 3)] ∧
    round (opts9W.audioDuration * 30) = 2 ∧ ((2 : ℤ) ≠ 3) := by
  refine ⟨?_, ?_, by decide⟩
  · simp only [buildTimeline, opts9W, effectiveFps]
    norm_num [Int.ceil_eq_iff]
  · norm_num [opts9W, round_eq]

/-- Claim C9 (amended): for an empty cue list (and any audio duration and
frame-rate option), `buildTimeline` returns exactly one segment spanning
`[0, ceil(audioDuration × fps))` — with fps read as 30 when the option is
absent or zero — referencing the placeholder image. -/
theorem claim9_empty_cues_placeholder (resolve : String → String)
    (nowIso : String) (opts : TimelineBuildOptions)
    (h : opts.graphicCues = []) :
    (buildTimeline resolve nowIso opts).segments =
      [{ startFrame := 0,
         endFrame := ⌈opts.audioDuration * effectiveFps opts.fps⌉,
         durationFrames := ⌈opts.audioDuration * effectiveFps opts.fps⌉,
         imagePath := pathJoin (resolve opts.imagesDir) "placeholder.png",
         caption := none }] := by
  simp [buildTimeline, h]

/-- Witness for C9 (amended) at `opts9W`: the single placeholder segment is
`[0, 3)`. -/
theorem claim9_witness :
    (buildTimeline id "now" opts9W).segments =
      [{ startFrame := 0, endFrame := 3, durationFrames := 3,
         imagePath := pathJoin "d" "placeholder.png", caption := none }] := by
  rw [claim9_empty_cues_placeholder id "now" opts9W rfl]
  simp only [opts9W, effectiveFps, id]
  norm_num [Int.ceil_eq_iff]

/-! Claim C10 — the returned path is always the caller-supplied output path -/

/-- Claim C10: every successful `generateImage` call — hit or miss —
returns `imagePath = request.outputPath`, and on return that output path
exists on disk (on a hit the stored artifact was first copied there); the
path recorded in the cache row is never returned directly. -/
theorem claim10_output_path (env : ImgEnv) (st : ImgState)
    (request : ImageGenerationRequest) (result : ImageGenerationResult)
    (st' : ImgState)
    (h : generateImage env st request = (Except.ok result, st')) :
    result.imagePath = request.outputPath ∧
      st'.files request.outputPath = true := by
  simp only [generateImage] at h
  rcases hcc : checkCache env st
      (generateCacheKey env.config request.prompt request.imageType)
      request.imageType with ⟨c, st₁⟩
  rw [hcc] at h
  cases c with
  | some p =>
    simp only [Prod.mk.injEq, Except.ok.injEq] at h
    obtain ⟨h1, h2⟩ := h
    subst h1 h2
    simp [setFile]
  | none =>
    cases hk : env.config.geminiApiKey with
    | none => rw [hk] at h; simp at h
    | some k =>
      rw [hk] at h
      cases hg : env.generate (env.buildStyle request.prompt request.imageType) with
      | error msg => rw [hg] at h; simp at h
      | ok d =>
        rw [hg] at h
        simp only [Prod.mk.injEq, Except.ok.injEq] at h
        obtain ⟨h1, h2⟩ := h
        subst h1 h2
        simp [saveToCache, setFile]

/-- Witness for C10 at the `req10` scenario (a cache miss). -/
theorem claim10_witness :
    ({ imagePath := "out/l.png", prompt := "lightning", cached := false } :
        ImageGenerationResult).imagePath = req10.outputPath ∧
    (generateImage imgEnvW imgSt0 req10).2.files req10.outputPath = true :=
  claim10_output_path imgEnvW imgSt0 req10
    { imagePath := "out/l.png", prompt := "lightning", cached := false }
    (generateImage imgEnvW imgSt0 req10).2 rfl
